import Mathlib

/-!
Shallow embedding of `SpikeMonitorCore`
(`src/carlsim/spike_monitor/spike_monitor_core.cpp`) and proofs about it.

Modelling conventions:

* C++ `float`/`double` arithmetic is modelled by exact rational arithmetic
  (`ℚ`); the properties under study concern the algebraic structure of the
  formulas, not rounding.
* A failed `assert` is a fatal, fail-fast fault.  Every operation that can
  fail an assertion returns `Except Unit _`, with `Except.error ()` marking
  the fault.
* `sqrt` is not computable on `ℝ`, so `getPopStdFiringRate` returns the
  radicand (the exact value the source passes to `sqrt`); theorems about it
  apply `Real.sqrt` at the statement level.
* The simulation collaborator (`snn_`) supplies the current time
  (`getSimTimeSec()*1000 + getSimTimeMs()`); it is passed to
  `startRecording`/`stopRecording` as an explicit argument.
  `snn_->updateSpikeMonitor(grpId_)` flushes collaborator-side buffers and
  does not itself modify the monitor state, so it is a no-op here; buffered
  spikes are delivered through `pushAER` while recording.
* `FILE*` sinks are modelled by numeric sink identifiers; every `fwrite`
  appends a `(sink, word)` pair to an explicit write trace.  Diagnostic
  `CARLSIM_ERROR` messages that the source treats as non-fatal are counted
  in `errLog`.
* Fields that only feed diagnostics (`monitorId_`, `grpId_`, the four log
  file pointers, `spkMonLastUpdated_`) play no role in any claim and are
  omitted from the state.
-/

/-- Event representation mode.  The source sets `mode_ = AER` in the
constructor and currently supports no other mode. -/
inductive EventMode
  | AER
  deriving DecidableEq, Repr

/-- State of one `SpikeMonitorCore` object: the member variables assigned in
the constructor, `init()` and the member functions of
`spike_monitor_core.cpp`. -/
structure SpikeMonitorCore where
  nNeurons : Nat
  recordSet : Bool
  persistentData : Bool
  mode : EventMode
  startTime : Int
  startTimeLast : Int
  stopTime : Int
  accumTime : Int
  totalTime : Int
  spkVector : List (List Int)
  needToCalculateFiringRates : Bool
  needToSortFiringRates : Bool
  firingRates : List ℚ
  firingRatesSorted : List ℚ
  spikeFileId : Option Nat
  needToWriteFileHeader : Bool
  fileTrace : List (Nat × Int)
  errLog : Nat
  deriving DecidableEq, Repr

deriving instance DecidableEq for Except

namespace SpikeMonitorCore

/-- `spikeFileSignature_ = 206661989` (constructor). -/
def spikeFileSignature : Int := 206661989

/-- `spikeFileVersion_ = 1.0f`, written through an `int`-sized `fwrite`
(line 378): the word that lands on disk is the IEEE-754 bit pattern of
`1.0f`. -/
def spikeFileVersionWord : Int := 1065353216

/-- Modelled from the spec: `isRecording()` is a one-line accessor for
`recordSet_` declared in the class header (which is not among the shown
sources); every use in the `.cpp` pairs it with `recordSet_`. -/
def isRecording (m : SpikeMonitorCore) : Bool := m.recordSet

/-- Modelled from the spec: `getRecordingTotalTime()` is the accessor for
`totalTime_` declared in the class header (not among the shown sources);
`getPopMeanFiringRate` and `getNeuronMeanFiringRate` use it
interchangeably with `totalTime_`. -/
def getRecordingTotalTime (m : SpikeMonitorCore) : Int := m.totalTime

/-- Modelled from the spec: `setPersistentData` is the header-declared
setter for `persistentData_` (spec §3: `persistentMode` "selects accounting
discipline (default off)"). -/
def setPersistentData (b : Bool) (m : SpikeMonitorCore) : SpikeMonitorCore :=
  { m with persistentData := b }

/-- Constructor plus `init()` (lines 11-47): `nNeurons_` is set from the
collaborator and asserted positive, the spike vector gets one (empty) slot
per neuron, and `clear()` establishes the remaining fields.  The resulting
state is written out directly here. -/
def initMonitor (n : Nat) : Except Unit SpikeMonitorCore :=
  if 0 < n then
    .ok { nNeurons := n
          recordSet := false
          persistentData := false
          mode := EventMode.AER
          startTime := -1
          startTimeLast := -1
          stopTime := -1
          accumTime := 0
          totalTime := -1
          spkVector := List.replicate n []
          needToCalculateFiringRates := true
          needToSortFiringRates := true
          firingRates := List.replicate n 0
          firingRatesSorted := List.replicate n 0
          spikeFileId := none
          needToWriteFileHeader := true
          fileTrace := []
          errLog := 0 }
  else .error ()

/-- `clear()` (lines 58-76).  The loop clears `spkVector_[i]` for every
`i < nNeurons_`; since `init()` fixes the vector at exactly `nNeurons_`
entries for the object's life, the cleared store is `replicate nNeurons []`. -/
def clear (m : SpikeMonitorCore) : Except Unit SpikeMonitorCore :=
  if m.isRecording then .error ()
  else
    .ok { m with recordSet := false
                 startTime := -1
                 startTimeLast := -1
                 stopTime := -1
                 accumTime := 0
                 totalTime := -1
                 spkVector := List.replicate m.nNeurons []
                 needToCalculateFiringRates := true
                 needToSortFiringRates := true
                 firingRates := List.replicate m.nNeurons 0
                 firingRatesSorted := List.replicate m.nNeurons 0 }

/-- The assignment loop of `calculateFiringRates` (lines 345-347):
`firingRates_[i] = spkVector_[i].size()*1000.0/totalTime_` for
`i < nNeurons_`. -/
def ratesOf (m : SpikeMonitorCore) : List ℚ :=
  (List.range m.nNeurons).map
    (fun i => ((m.spkVector.getD i []).length : ℚ) * 1000 / (m.totalTime : ℚ))

/-- `calculateFiringRates()` (lines 326-350): no-op when the cache is clean;
otherwise zero both caches, return early (warning only, dirty flag kept) when
`totalTime_ == 0`, fail the `assert(totalTime_>0)` when `totalTime_` is
negative, and otherwise fill `firingRates_` and clear the dirty flag. -/
def calculateFiringRates (m : SpikeMonitorCore) : Except Unit SpikeMonitorCore :=
  if m.needToCalculateFiringRates = false then .ok m
  else if m.mode = EventMode.AER then
    if m.totalTime = 0 then
      .ok { m with firingRates := List.replicate m.nNeurons 0
                   firingRatesSorted := List.replicate m.nNeurons 0 }
    else if 0 < m.totalTime then
      .ok { m with firingRates := ratesOf m
                   firingRatesSorted := List.replicate m.nNeurons 0
                   needToCalculateFiringRates := false }
    else .error ()
  else .error ()

/-- `std::sort` over a vector of rates: ascending order. -/
def stdSort (l : List ℚ) : List ℚ := l.insertionSort (· ≤ ·)

/-- `sortFiringRates()` (lines 353-365). -/
def sortFiringRates (m : SpikeMonitorCore) : Except Unit SpikeMonitorCore :=
  if m.needToSortFiringRates = false then .ok m
  else
    match calculateFiringRates m with
    | .error e => .error e
    | .ok m1 =>
      .ok { m1 with firingRatesSorted := stdSort m1.firingRates
                    needToSortFiringRates := false }

/-- `getNeuronNumSpikes(neurId)` (lines 147-153): asserts `Idle`, a valid
id and AER mode, then returns `spkVector_[neurId].size()`. -/
def getNeuronNumSpikes (neurId : Nat) (m : SpikeMonitorCore) :
    Except Unit (Nat × SpikeMonitorCore) :=
  if m.isRecording then .error ()
  else if neurId < m.nNeurons then
    if m.mode = EventMode.AER then .ok ((m.spkVector.getD neurId []).length, m)
    else .error ()
  else .error ()

/-- `getPopNumSpikes()` (lines 105-113): the loop
`for i < nNeurons_: nSpk += getNeuronNumSpikes(i)`; every loop index passes
the inner asserts. -/
def getPopNumSpikes (m : SpikeMonitorCore) : Except Unit (Nat × SpikeMonitorCore) :=
  if m.isRecording then .error ()
  else
    .ok ((List.range m.nNeurons).foldl (fun a i => a + (m.spkVector.getD i []).length) 0, m)

/-- `getPopMeanFiringRate()` (lines 78-85). -/
def getPopMeanFiringRate (m : SpikeMonitorCore) : Except Unit (ℚ × SpikeMonitorCore) :=
  if m.isRecording then .error ()
  else if m.totalTime = 0 then .ok (0, m)
  else
    match getPopNumSpikes m with
    | .error e => .error e
    | .ok (nSpk, m') =>
      .ok ((nSpk : ℚ) * 1000 / ((m.getRecordingTotalTime : ℚ) * (m.nNeurons : ℚ)), m')

/-- `getAllFiringRates()` (lines 115-122). -/
def getAllFiringRates (m : SpikeMonitorCore) : Except Unit (List ℚ × SpikeMonitorCore) :=
  if m.isRecording then .error ()
  else
    match calculateFiringRates m with
    | .error e => .error e
    | .ok m' => .ok (m'.firingRates, m')

/-- `getAllFiringRatesSorted()` (lines 155-162). -/
def getAllFiringRatesSorted (m : SpikeMonitorCore) :
    Except Unit (List ℚ × SpikeMonitorCore) :=
  if m.isRecording then .error ()
  else
    match sortFiringRates m with
    | .error e => .error e
    | .ok m' => .ok (m'.firingRatesSorted, m')

/-- `getPopStdFiringRate()` (lines 87-103).  The source accumulates
`std += (rates[i]-meanRate)*(rates[i]-meanRate)` over `i < nNeurons_`,
divides by `nNeurons_ - 1` and returns `sqrt` of that; this model returns
the radicand (the argument of `sqrt`), with the early-return `0.0f` paths
returning radicand `0`. -/
def getPopStdFiringRate (m : SpikeMonitorCore) : Except Unit (ℚ × SpikeMonitorCore) :=
  if m.isRecording then .error ()
  else if m.totalTime = 0 then .ok (0, m)
  else
    match getPopMeanFiringRate m with
    | .error e => .error e
    | .ok (meanRate, _) =>
      match getAllFiringRates m with
      | .error e => .error e
      | .ok (rates, m') =>
        if 1 < m.nNeurons then
          .ok (((List.range m.nNeurons).foldl
                  (fun a i => a + (rates.getD i 0 - meanRate) * (rates.getD i 0 - meanRate)) 0)
                / ((m.nNeurons : ℚ) - 1), m')
        else .ok (0, m')

/-- `getMaxFiringRate()` (lines 124-130): `rates.back()` of the sorted
cache; calling `back()` on an empty vector is undefined and modelled as a
fault (it cannot occur while `nNeurons_ > 0`). -/
def getMaxFiringRate (m : SpikeMonitorCore) : Except Unit (ℚ × SpikeMonitorCore) :=
  if m.isRecording then .error ()
  else
    match getAllFiringRatesSorted m with
    | .error e => .error e
    | .ok (rates, m') =>
      match rates.getLast? with
      | none => .error ()
      | some v => .ok (v, m')

/-- `getMinFiringRate()` (lines 132-138): `rates.front()` of the sorted
cache, with the empty-vector case modelled as for `getMaxFiringRate`. -/
def getMinFiringRate (m : SpikeMonitorCore) : Except Unit (ℚ × SpikeMonitorCore) :=
  if m.isRecording then .error ()
  else
    match getAllFiringRatesSorted m with
    | .error e => .error e
    | .ok (rates, m') =>
      match rates.head? with
      | none => .error ()
      | some v => .ok (v, m')

/-- `getNumNeuronsWithFiringRate(min, max)` (lines 164-181): asserts
`Idle`, `min >= 0`, `max >= 0` and `max >= min`, refreshes the sorted
cache, and counts its entries lying in `[min, max]` by a linear scan. -/
def getNumNeuronsWithFiringRate (mi ma : ℚ) (m : SpikeMonitorCore) :
    Except Unit (Nat × SpikeMonitorCore) :=
  if m.isRecording then .error ()
  else if 0 ≤ mi ∧ 0 ≤ ma ∧ mi ≤ ma then
    match sortFiringRates m with
    | .error e => .error e
    | .ok m' =>
      .ok (m'.firingRatesSorted.countP (fun r => decide (mi ≤ r) && decide (r ≤ ma)), m')
  else .error ()

/-- `getNumSilentNeurons()` (lines 183-187). -/
def getNumSilentNeurons (m : SpikeMonitorCore) : Except Unit (Nat × SpikeMonitorCore) :=
  if m.isRecording then .error ()
  else getNumNeuronsWithFiringRate 0 0 m

/-- `getPercentSilentNeurons()` (lines 196-200):
`getNumNeuronsWithFiringRate(0,0)*100.0/nNeurons_`. -/
def getPercentSilentNeurons (m : SpikeMonitorCore) : Except Unit (ℚ × SpikeMonitorCore) :=
  if m.isRecording then .error ()
  else
    match getNumNeuronsWithFiringRate 0 0 m with
    | .error e => .error e
    | .ok (c, m') => .ok ((c : ℚ) * 100 / (m.nNeurons : ℚ), m')

/-- `getSpikeVector2D()` (lines 202-207). -/
def getSpikeVector2D (m : SpikeMonitorCore) :
    Except Unit (List (List Int) × SpikeMonitorCore) :=
  if m.isRecording then .error ()
  else if m.mode = EventMode.AER then .ok (m.spkVector, m)
  else .error ()

/-- `pushAER(time, neurId)` (lines 255-260): asserts `isRecording()` and
AER mode, then executes `spkVector_[neurId].push_back(time)` with **no**
bounds check on `neurId` (an out-of-range id is an unchecked `operator[]`
access, undefined behaviour in the C++; `List.set` leaves the store
unchanged there, standing in for that unchecked access). -/
def pushAER (time : Int) (neurId : Nat) (m : SpikeMonitorCore) :
    Except Unit SpikeMonitorCore :=
  if m.isRecording = false then .error ()
  else if m.mode = EventMode.AER then
    .ok { m with spkVector := m.spkVector.set neurId (m.spkVector.getD neurId [] ++ [time]) }
  else .error ()

/-- `startRecording()` (lines 262-292), with the current simulation time
passed explicitly. -/
def startRecording (now : Int) (m : SpikeMonitorCore) : Except Unit SpikeMonitorCore :=
  if m.isRecording then .error ()
  else
    match (if m.persistentData = false then clear m else .ok m) with
    | .error e => .error e
    | .ok m1 =>
      let m2 := { m1 with needToCalculateFiringRates := true
                          needToSortFiringRates := true
                          recordSet := true }
      if m2.persistentData then
        .ok { m2 with startTime := if m2.startTime < 0 then now else m2.startTime
                      startTimeLast := now
                      accumTime := if 0 < m2.totalTime then m2.totalTime else 0 }
      else
        .ok { m2 with startTime := now
                      startTimeLast := now
                      accumTime := 0 }

/-- `stopRecording()` (lines 294-308): asserts `isRecording()` and the three
timing fields `> -1`, sets `stopTime_` and
`totalTime_ = stopTime_ - startTimeLast_ + accumTime_`, then asserts
`totalTime_ >= 0` (fatal when violated). -/
def stopRecording (now : Int) (m : SpikeMonitorCore) : Except Unit SpikeMonitorCore :=
  if m.isRecording = false then .error ()
  else if -1 < m.startTime ∧ -1 < m.startTimeLast ∧ -1 < m.accumTime then
    let m1 := { m with recordSet := false
                       stopTime := now
                       totalTime := now - m.startTimeLast + m.accumTime }
    if 0 ≤ m1.totalTime then .ok m1 else .error ()
  else .error ()

/-- `writeSpikeFileHeader()` (lines 369-382): no-op when the header has
already been written; otherwise `fwrite` the signature word and the version
word to the current sink and clear the flag.  (The source never reaches
this with `spikeFileId_ == NULL`: the only call site assigns the sink
first.) -/
def writeSpikeFileHeader (m : SpikeMonitorCore) : SpikeMonitorCore :=
  if m.needToWriteFileHeader = false then m
  else
    match m.spikeFileId with
    | none => m
    | some f =>
      { m with fileTrace := m.fileTrace ++ [(f, spikeFileSignature), (f, spikeFileVersionWord)]
               needToWriteFileHeader := false }

/-- `setSpikeFileId(spikeFileId)` (lines 310-322): asserts `Idle`; if a sink
is already bound, logs a `CARLSIM_ERROR` (non-fatal) and proceeds; rebinds,
marks the header as needing to be written again, and immediately writes it. -/
def setSpikeFileId (f : Nat) (m : SpikeMonitorCore) : Except Unit SpikeMonitorCore :=
  if m.isRecording then .error ()
  else
    let m1 := if m.spikeFileId.isSome then { m with errLog := m.errLog + 1 } else m
    .ok (writeSpikeFileHeader { m1 with spikeFileId := some f, needToWriteFileHeader := true })

/-- Well-formedness of a monitor state, as established by `init()` and
preserved by every operation: the group is non-empty, the store and both
caches have exactly one entry per neuron, a clean rate cache matches the
store (and recording time is positive, since `calculateFiringRates` only
clears its flag then), and a clean sorted cache is the sorted copy of the
rate cache — with the one reachable stale corner (`totalTime_ == 0`), where
the rate cache stays dirty but holds zeros. -/
def WF (m : SpikeMonitorCore) : Prop :=
  0 < m.nNeurons ∧
  m.spkVector.length = m.nNeurons ∧
  m.firingRates.length = m.nNeurons ∧
  m.firingRatesSorted.length = m.nNeurons ∧
  (m.needToCalculateFiringRates = false → 0 < m.totalTime ∧ m.firingRates = ratesOf m) ∧
  (m.needToSortFiringRates = false →
     m.firingRatesSorted = stdSort m.firingRates ∧
     (m.needToCalculateFiringRates = true →
        m.totalTime = 0 ∧ m.firingRates = List.replicate m.nNeurons 0))

instance (m : SpikeMonitorCore) : Decidable (WF m) := by
  unfold WF; infer_instance

/-- The frame of a statistics query: everything except the two rate caches
and their dirty flags is untouched. -/
def framePreserved (m m' : SpikeMonitorCore) : Prop :=
  m'.nNeurons = m.nNeurons ∧
  m'.recordSet = m.recordSet ∧
  m'.persistentData = m.persistentData ∧
  m'.mode = m.mode ∧
  m'.startTime = m.startTime ∧
  m'.startTimeLast = m.startTimeLast ∧
  m'.stopTime = m.stopTime ∧
  m'.accumTime = m.accumTime ∧
  m'.totalTime = m.totalTime ∧
  m'.spkVector = m.spkVector ∧
  m'.spikeFileId = m.spikeFileId ∧
  m'.needToWriteFileHeader = m.needToWriteFileHeader ∧
  m'.fileTrace = m.fileTrace ∧
  m'.errLog = m.errLog

instance (m m' : SpikeMonitorCore) : Decidable (framePreserved m m') := by
  unfold framePreserved; infer_instance

/-- Sample variance with the spec's wording: sum of squared deviations of
the rates from the mean, divided by `neuronCount - 1`. -/
def sampleVariance (rates : List ℚ) (mean : ℚ) (n : Nat) : ℚ :=
  ((rates.map (fun r => (r - mean) ^ 2)).sum) / ((n : ℚ) - 1)

end SpikeMonitorCore

namespace SpikeMonitorCore

/-- The only event mode is AER. -/
lemma eventMode_eq (e : EventMode) : e = EventMode.AER := by cases e; rfl

/-- Folding `a + g i` from `c` over a list sums the images. -/
lemma foldl_add_init {M : Type} [AddCommMonoid M] (g : ℕ → M) :
    ∀ (l : List ℕ) (c : M), l.foldl (fun a i => a + g i) c = c + (l.map g).sum := by
  intro l
  induction l with
  | nil => intro c; simp
  | cons x xs ih => intro c; simp [List.foldl_cons, ih, add_assoc]

/-- Reading a list back index by index over `range` reproduces the list. -/
lemma map_getD_range {α β : Type} (f : α → β) (d : α) :
    ∀ R : List α, (List.range R.length).map (fun i => f (R.getD i d)) = R.map f := by
  intro R
  induction R with
  | nil => simp
  | cons a R ih =>
    have h1 : List.range (a :: R).length = 0 :: (List.range R.length).map Nat.succ := by
      simpa using List.range_succ_eq_map R.length
    rw [h1, List.map_cons, List.map_map]
    have h2 : ((fun i => f ((a :: R).getD i d)) ∘ Nat.succ) = fun i => f (R.getD i d) := by
      funext i
      simp [List.getD_cons_succ]
    rw [h2, ih]
    simp

/-- List sum over `range` coincides with the `Finset.range` sum. -/
lemma list_sum_range_eq {M : Type} [AddCommMonoid M] (g : ℕ → M) :
    ∀ n : ℕ, ((List.range n).map g).sum = ∑ i ∈ Finset.range n, g i := by
  intro n
  induction n with
  | zero => simp
  | succ k ih => rw [List.range_succ]; simp [ih, Finset.sum_range_succ]

/-- `getD` on a replicated list. -/
lemma getD_replicate {α : Type} (n i : ℕ) (a d : α) :
    (List.replicate n a).getD i d = if i < n then a else d := by
  rw [List.getD_eq_getElem?_getD, List.getElem?_replicate]
  split <;> simp

/-- In a `≤`-sorted rational list, the last element is a member and an upper
bound. -/
lemma sorted_getLast?_max :
    ∀ (l : List ℚ), l.Sorted (· ≤ ·) → ∀ v : ℚ, l.getLast? = some v →
      v ∈ l ∧ ∀ x ∈ l, x ≤ v := by
  intro l
  induction l with
  | nil => intro _ v hv; cases hv
  | cons a t ih =>
    intro hs v hv
    cases t with
    | nil =>
      have hva : v = a := by simpa using hv.symm
      subst hva
      exact ⟨by simp, by intro x hx; simp at hx; simp [hx]⟩
    | cons b t' =>
      rw [List.getLast?_cons_cons] at hv
      obtain ⟨hvm, hub⟩ := ih hs.of_cons v hv
      refine ⟨List.mem_cons_of_mem a hvm, ?_⟩
      intro x hx
      rcases List.mem_cons.mp hx with rfl | hx'
      · exact List.rel_of_sorted_cons hs v hvm
      · exact hub x hx'

/-- In a `≤`-sorted rational list, the head is a member and a lower bound. -/
lemma sorted_head?_min (l : List ℚ) (hs : l.Sorted (· ≤ ·)) (v : ℚ)
    (hv : l.head? = some v) : v ∈ l ∧ ∀ x ∈ l, v ≤ x := by
  cases l with
  | nil => cases hv
  | cons a t =>
    have hva : v = a := by simpa using hv.symm
    subst hva
    refine ⟨by simp, ?_⟩
    intro x hx
    rcases List.mem_cons.mp hx with rfl | hx'
    · exact le_refl x
    · exact List.rel_of_sorted_cons hs x hx'

/-- `framePreserved` is reflexive. -/
lemma framePreserved_refl (m : SpikeMonitorCore) : framePreserved m m :=
  ⟨rfl, rfl, rfl, rfl, rfl, rfl, rfl, rfl, rfl, rfl, rfl, rfl, rfl, rfl⟩

/-- `framePreserved` is transitive. -/
lemma framePreserved_trans {m₁ m₂ m₃ : SpikeMonitorCore}
    (h₁ : framePreserved m₁ m₂) (h₂ : framePreserved m₂ m₃) : framePreserved m₁ m₃ := by
  obtain ⟨a1, a2, a3, a4, a5, a6, a7, a8, a9, a10, a11, a12, a13, a14⟩ := h₁
  obtain ⟨b1, b2, b3, b4, b5, b6, b7, b8, b9, b10, b11, b12, b13, b14⟩ := h₂
  exact ⟨b1.trans a1, b2.trans a2, b3.trans a3, b4.trans a4, b5.trans a5, b6.trans a6,
         b7.trans a7, b8.trans a8, b9.trans a9, b10.trans a10, b11.trans a11,
         b12.trans a12, b13.trans a13, b14.trans a14⟩

/-- `calculateFiringRates` only touches the caches and their flags. -/
lemma calculateFiringRates_frame {m mc : SpikeMonitorCore}
    (h : calculateFiringRates m = .ok mc) : framePreserved m mc := by
  unfold calculateFiringRates at h
  split at h
  · injection h with h'; subst h'; exact framePreserved_refl m
  · split at h
    · split at h
      · injection h with h'; subst h'
        exact ⟨rfl, rfl, rfl, rfl, rfl, rfl, rfl, rfl, rfl, rfl, rfl, rfl, rfl, rfl⟩
      · split at h
        · injection h with h'; subst h'
          exact ⟨rfl, rfl, rfl, rfl, rfl, rfl, rfl, rfl, rfl, rfl, rfl, rfl, rfl, rfl⟩
        · exact Except.noConfusion h
    · exact Except.noConfusion h

/-- `sortFiringRates` only touches the caches and their flags. -/
lemma sortFiringRates_frame {m ms : SpikeMonitorCore}
    (h : sortFiringRates m = .ok ms) : framePreserved m ms := by
  unfold sortFiringRates at h
  split at h
  · injection h with h'; subst h'; exact framePreserved_refl m
  · revert h
    cases hc : calculateFiringRates m with
    | error e => intro h; exact Except.noConfusion h
    | ok m1 =>
      intro h
      injection h with h'
      subst h'
      exact framePreserved_trans (calculateFiringRates_frame hc)
        ⟨rfl, rfl, rfl, rfl, rfl, rfl, rfl, rfl, rfl, rfl, rfl, rfl, rfl, rfl⟩

end SpikeMonitorCore

namespace SpikeMonitorCore

/-- Characterisation of the cache refresh while idle with non-negative
recording time: `getAllFiringRates` succeeds, the sorted-cache refresh
succeeds, and the refreshed sorted cache is exactly `std::sort` of the rate
vector returned by `getAllFiringRates`. -/
lemma queries_core (m : SpikeMonitorCore) (hw : WF m) (hrec : m.recordSet = false)
    (htt : 0 ≤ m.totalTime) :
    ∃ (R : List ℚ) (mc ms : SpikeMonitorCore),
      calculateFiringRates m = .ok mc ∧
      mc.firingRates = R ∧
      R.length = m.nNeurons ∧
      getAllFiringRates m = .ok (R, mc) ∧
      sortFiringRates m = .ok ms ∧
      ms.firingRatesSorted = stdSort R ∧
      ms.needToSortFiringRates = false ∧
      ms.recordSet = false ∧
      getAllFiringRatesSorted m = .ok (stdSort R, ms) := by
  obtain ⟨hn, hsl, hrl, hssl, hcalc, hsort⟩ := hw
  have hmode : m.mode = EventMode.AER := eventMode_eq m.mode
  by_cases hc : m.needToCalculateFiringRates = false
  · obtain ⟨hpos, hfr⟩ := hcalc hc
    have hcEq : calculateFiringRates m = .ok m := by
      unfold calculateFiringRates
      rw [if_pos hc]
    by_cases hs : m.needToSortFiringRates = false
    · obtain ⟨hfs, _⟩ := hsort hs
      have hsEq : sortFiringRates m = .ok m := by
        unfold sortFiringRates
        rw [if_pos hs]
      refine ⟨m.firingRates, m, m, hcEq, rfl, hrl, ?_, hsEq, hfs, hs, hrec, ?_⟩
      · simp [getAllFiringRates, isRecording, hrec, hcEq]
      · simp [getAllFiringRatesSorted, isRecording, hrec, hsEq, hfs]
    · have hsEq : sortFiringRates m =
          .ok { m with firingRatesSorted := stdSort m.firingRates
                       needToSortFiringRates := false } := by
        unfold sortFiringRates
        rw [if_neg hs, hcEq]
      refine ⟨m.firingRates, m, _, hcEq, rfl, hrl, ?_, hsEq, rfl, rfl, hrec, ?_⟩
      · simp [getAllFiringRates, isRecording, hrec, hcEq]
      · simp [getAllFiringRatesSorted, isRecording, hrec, hsEq]
  · have hc' : m.needToCalculateFiringRates = true := by simpa using hc
    by_cases h0 : m.totalTime = 0
    · have hcEq : calculateFiringRates m =
          .ok { m with firingRates := List.replicate m.nNeurons 0
                       firingRatesSorted := List.replicate m.nNeurons 0 } := by
        unfold calculateFiringRates
        rw [if_neg hc, if_pos hmode, if_pos h0]
      by_cases hs : m.needToSortFiringRates = false
      · obtain ⟨hfs, hcorner⟩ := hsort hs
        obtain ⟨_, hfr0⟩ := hcorner hc'
        have hsEq : sortFiringRates m = .ok m := by
          unfold sortFiringRates
          rw [if_pos hs]
        have hfs' : m.firingRatesSorted = stdSort (List.replicate m.nNeurons 0) := by
          rw [hfs, hfr0]
        refine ⟨List.replicate m.nNeurons 0, _, m, hcEq, rfl, by simp, ?_, hsEq, hfs', hs,
                hrec, ?_⟩
        · simp [getAllFiringRates, isRecording, hrec, hcEq]
        · simp [getAllFiringRatesSorted, isRecording, hrec, hsEq, hfs']
      · have hsEq : sortFiringRates m =
            .ok { m with firingRates := List.replicate m.nNeurons 0
                         firingRatesSorted := stdSort (List.replicate m.nNeurons 0)
                         needToSortFiringRates := false } := by
          unfold sortFiringRates
          rw [if_neg hs, hcEq]
        refine ⟨List.replicate m.nNeurons 0, _, _, hcEq, rfl, by simp, ?_, hsEq, rfl, rfl,
                hrec, ?_⟩
        · simp [getAllFiringRates, isRecording, hrec, hcEq]
        · simp [getAllFiringRatesSorted, isRecording, hrec, hsEq]
    · have hpos : 0 < m.totalTime := lt_of_le_of_ne htt (Ne.symm h0)
      have hcEq : calculateFiringRates m =
          .ok { m with firingRates := ratesOf m
                       firingRatesSorted := List.replicate m.nNeurons 0
                       needToCalculateFiringRates := false } := by
        unfold calculateFiringRates
        rw [if_neg hc, if_pos hmode, if_neg h0, if_pos hpos]
      by_cases hs : m.needToSortFiringRates = false
      · obtain ⟨_, hcorner⟩ := hsort hs
        exact absurd (hcorner hc').1 h0
      · have hsEq : sortFiringRates m =
            .ok { m with firingRates := ratesOf m
                         firingRatesSorted := stdSort (ratesOf m)
                         needToCalculateFiringRates := false
                         needToSortFiringRates := false } := by
          unfold sortFiringRates
          rw [if_neg hs, hcEq]
        refine ⟨ratesOf m, _, _, hcEq, rfl, by simp [ratesOf], ?_, hsEq, rfl, rfl, hrec, ?_⟩
        · simp [getAllFiringRates, isRecording, hrec, hcEq]
        · simp [getAllFiringRatesSorted, isRecording, hrec, hsEq]

end SpikeMonitorCore

namespace SpikeMonitorCore

/-- A freshly initialised one-neuron monitor: the state `initMonitor 1`
returns. -/
def mFresh : SpikeMonitorCore :=
  { nNeurons := 1
    recordSet := false
    persistentData := false
    mode := EventMode.AER
    startTime := -1
    startTimeLast := -1
    stopTime := -1
    accumTime := 0
    totalTime := -1
    spkVector := [[]]
    needToCalculateFiringRates := true
    needToSortFiringRates := true
    firingRates := [0]
    firingRatesSorted := [0]
    spikeFileId := none
    needToWriteFileHeader := true
    fileTrace := []
    errLog := 0 }

/-- The fresh monitor with persistent mode switched on. -/
def mPersist : SpikeMonitorCore := setPersistentData true mFresh

/-- A two-neuron monitor in the middle of a recording window that started at
`t = 0` ms, with spikes at 10 and 20 ms on neuron 0 and at 30 ms on
neuron 1. -/
def mRecEx : SpikeMonitorCore :=
  { mFresh with nNeurons := 2
                recordSet := true
                startTime := 0
                startTimeLast := 0
                spkVector := [[10, 20], [30]]
                firingRates := [0, 0]
                firingRatesSorted := [0, 0] }

/-- The same monitor after `stopRecording` at `t = 500` ms (caches still
dirty). -/
def mEx : SpikeMonitorCore :=
  { mRecEx with recordSet := false
                stopTime := 500
                totalTime := 500 }

/-- `mEx` with both caches refreshed (rates 4 Hz and 2 Hz). -/
def mClean : SpikeMonitorCore :=
  { mEx with needToCalculateFiringRates := false
             needToSortFiringRates := false
             firingRates := [4, 2]
             firingRatesSorted := [2, 4] }

/-- `mEx` with a spike file sink 0 bound and its header already written. -/
def mBound : SpikeMonitorCore :=
  { mEx with spikeFileId := some 0
             needToWriteFileHeader := false
             fileTrace := [(0, spikeFileSignature), (0, spikeFileVersionWord)] }

/-- The spec's persistent-mode accumulation scenario, run end to end: a
500 ms window with 2 spikes, then (no `clear()`, persistent mode) another
500 ms window with 3 spikes; the result is the final `totalTime_` and the
population spike count. -/
def scenarioC2 : Except Unit (Int × Nat) := do
  let m0 ← initMonitor 1
  let m1 ← startRecording 0 (setPersistentData true m0)
  let m2 ← pushAER 10 0 m1
  let m3 ← pushAER 20 0 m2
  let m4 ← stopRecording 500 m3
  let m5 ← startRecording 600 m4
  let m6 ← pushAER 700 0 m5
  let m7 ← pushAER 800 0 m6
  let m8 ← pushAER 900 0 m7
  let m9 ← stopRecording 1100 m8
  let p ← getPopNumSpikes m9
  pure (m9.totalTime, p.1)

/-- C2: a `startRecording` call in persistent mode from `Idle` keeps the
stored spike data, sets `startTime_` to the current time only when it is
still unset (negative), sets `startTimeLast_` to the current time, and seeds
`accumTime_` from the previous `totalTime_` when one exists (else 0); and
the two-window 500 ms + 500 ms scenario with 2 then 3 spikes ends with
`totalTime_ = 1000` ms and a population spike count of 5. -/
theorem C2_startRecording_persistent :
    (∀ (m : SpikeMonitorCore) (now : Int),
       m.persistentData = true → m.recordSet = false →
       ∃ m', startRecording now m = .ok m' ∧
         m'.spkVector = m.spkVector ∧
         m'.startTime = (if m.startTime < 0 then now else m.startTime) ∧
         m'.startTimeLast = now ∧
         m'.accumTime = (if 0 < m.totalTime then m.totalTime else 0) ∧
         m'.totalTime = m.totalTime ∧
         m'.recordSet = true) ∧
    scenarioC2 = .ok (1000, 5) := by
  constructor
  · intro m now hper hrec
    have hEq : startRecording now m =
        .ok { m with needToCalculateFiringRates := true
                     needToSortFiringRates := true
                     recordSet := true
                     startTime := if m.startTime < 0 then now else m.startTime
                     startTimeLast := now
                     accumTime := if 0 < m.totalTime then m.totalTime else 0 } := by
      unfold startRecording isRecording
      rw [hrec]
      simp [hper]
    exact ⟨_, hEq, rfl, rfl, rfl, rfl, rfl, rfl⟩
  · decide

/-- C2 witness: the persistent branch at the concrete fresh persistent
monitor and `now = 0`. -/
theorem C2_witness :
    ∃ m', startRecording 0 mPersist = .ok m' ∧
      m'.spkVector = mPersist.spkVector ∧
      m'.startTime = (if mPersist.startTime < 0 then 0 else mPersist.startTime) ∧
      m'.startTimeLast = 0 ∧
      m'.accumTime = (if 0 < mPersist.totalTime then mPersist.totalTime else 0) ∧
      m'.totalTime = mPersist.totalTime ∧
      m'.recordSet = true :=
  C2_startRecording_persistent.1 mPersist 0 rfl rfl

/-- C3: `stopRecording` from the `Recording` state with non-negative timing
fields moves to `Idle`, sets `stopTime_ = now` and
`totalTime_ = stopTime_ - startTimeLast_ + accumTime_`; a negative result
fails the `assert(totalTime_>=0)` fatally instead of continuing. -/
theorem C3_stopRecording_spec (m : SpikeMonitorCore) (now : Int)
    (hrec : m.recordSet = true)
    (h1 : -1 < m.startTime) (h2 : -1 < m.startTimeLast) (h3 : -1 < m.accumTime) :
    (0 ≤ now - m.startTimeLast + m.accumTime →
       stopRecording now m =
         .ok { m with recordSet := false
                      stopTime := now
                      totalTime := now - m.startTimeLast + m.accumTime }) ∧
    (now - m.startTimeLast + m.accumTime < 0 → stopRecording now m = .error ()) := by
  constructor
  · intro hnn
    unfold stopRecording isRecording
    rw [hrec]
    simp [h1, h2, h3, hnn]
  · intro hneg
    unfold stopRecording isRecording
    rw [hrec]
    simp [h1, h2, h3, not_le.mpr hneg]

/-- C3 witness: stopping the concrete recording monitor at `t = 500` ms. -/
theorem C3_witness :
    stopRecording 500 mRecEx =
      .ok { mRecEx with recordSet := false, stopTime := 500, totalTime := 500 } := by
  have h := (C3_stopRecording_spec mRecEx 500 rfl (by decide) (by decide) (by decide)).1
    (by decide)
  have he : (500 : Int) - mRecEx.startTimeLast + mRecEx.accumTime = 500 := by decide
  rw [he] at h
  exact h

/-- C4 counterexample: `pushAER` with the out-of-range neuron id 5 on a
recording two-neuron monitor is **not** rejected fatally — it returns
normally (the unchecked `operator[]` access is undefined behaviour in the
C++, not a failed assertion). -/
theorem C4_counterexample : pushAER 100 5 mRecEx = .ok mRecEx := by decide

/-- C4 amended: `pushAER` enforces the `Recording` and `AER` preconditions
fatally, but performs no bounds check on `neuronId`: for every id, in range
or not, the call succeeds and performs the unchecked store access. -/
theorem C4_amended_spec (t : Int) (i : Nat) (m : SpikeMonitorCore) :
    (m.recordSet = false → pushAER t i m = .error ()) ∧
    (m.recordSet = true → m.mode = EventMode.AER →
       pushAER t i m =
         .ok { m with spkVector := m.spkVector.set i (m.spkVector.getD i [] ++ [t]) }) := by
  constructor
  · intro h
    simp [pushAER, isRecording, h]
  · intro h hm
    simp [pushAER, isRecording, h, hm]

/-- C4 witness: the amended behaviour at the concrete recording monitor and
the out-of-range id 5. -/
theorem C4_witness :
    pushAER 100 5 mRecEx =
      .ok { mRecEx with
              spkVector := mRecEx.spkVector.set 5 (mRecEx.spkVector.getD 5 [] ++ [100]) } :=
  (C4_amended_spec 100 5 mRecEx).2 rfl rfl

/-- C9: `writeSpikeFileHeader` is a no-op once the header has been written
for the current sink, and `setSpikeFileId` on an already-bound monitor logs
a non-fatal error, rebinds to the new sink, marks the header as to be
written again and writes it exactly once to the new sink (after which the
header write is again a no-op). -/
theorem C9_header_once :
    (∀ m : SpikeMonitorCore, m.needToWriteFileHeader = false → writeSpikeFileHeader m = m) ∧
    (∀ (m : SpikeMonitorCore) (g f : Nat),
       m.recordSet = false → m.spikeFileId = some g →
       ∃ m', setSpikeFileId f m = .ok m' ∧
         m'.errLog = m.errLog + 1 ∧
         m'.spikeFileId = some f ∧
         m'.needToWriteFileHeader = false ∧
         m'.fileTrace = m.fileTrace ++ [(f, spikeFileSignature), (f, spikeFileVersionWord)] ∧
         writeSpikeFileHeader m' = m') := by
  constructor
  · intro m h
    unfold writeSpikeFileHeader
    rw [if_pos h]
  · intro m g f hrec hbound
    have hsome : m.spikeFileId.isSome = true := by rw [hbound]; rfl
    have hEq : setSpikeFileId f m =
        .ok { m with errLog := m.errLog + 1
                     spikeFileId := some f
                     needToWriteFileHeader := false
                     fileTrace := m.fileTrace ++
                       [(f, spikeFileSignature), (f, spikeFileVersionWord)] } := by
      unfold setSpikeFileId isRecording
      rw [hrec]
      simp [hsome, writeSpikeFileHeader]
    refine ⟨_, hEq, rfl, rfl, rfl, rfl, ?_⟩
    unfold writeSpikeFileHeader
    rw [if_pos rfl]

/-- C9 witness: rebinding the concrete bound monitor from sink 0 to
sink 1. -/
theorem C9_witness :
    ∃ m', setSpikeFileId 1 mBound = .ok m' ∧
      m'.errLog = mBound.errLog + 1 ∧
      m'.spikeFileId = some 1 ∧
      m'.needToWriteFileHeader = false ∧
      m'.fileTrace = mBound.fileTrace ++
        [(1, spikeFileSignature), (1, spikeFileVersionWord)] ∧
      writeSpikeFileHeader m' = m' :=
  C9_header_once.2 mBound 0 1 rfl rfl

end SpikeMonitorCore

namespace SpikeMonitorCore

/-- C1 counterexample: `clear()` on the fresh monitor followed immediately
by the population standard-deviation query does not succeed with zero — it
fails the internal `assert(totalTime_>0)` of `calculateFiringRates`,
because `clear()` left `totalTime_` at `-1`. -/
theorem C1_counterexample :
    (clear mFresh).bind getPopStdFiringRate = .error () := by decide

/-- C1 amended: after `clear()` while idle, `getPopMeanFiringRate` (and the
population spike count) succeed and return zero, but every query that
refreshes the rate caches — std rate, all rates, sorted rates, range count,
silent count, percent silent — fails the fatal `assert(totalTime_>0)` in
`calculateFiringRates`, because `clear()` sets `totalTime_` to the unset
value `-1`. -/
theorem C1_amended_spec (m : SpikeMonitorCore) (hrec : m.recordSet = false) :
    ∃ m', clear m = .ok m' ∧
      getPopNumSpikes m' = .ok (0, m') ∧
      getPopMeanFiringRate m' = .ok (0, m') ∧
      getPopStdFiringRate m' = .error () ∧
      getAllFiringRates m' = .error () ∧
      getAllFiringRatesSorted m' = .error () ∧
      getNumNeuronsWithFiringRate 0 0 m' = .error () ∧
      getNumSilentNeurons m' = .error () ∧
      getPercentSilentNeurons m' = .error () := by
  have hclear : clear m =
      .ok { m with recordSet := false
                   startTime := -1
                   startTimeLast := -1
                   stopTime := -1
                   accumTime := 0
                   totalTime := -1
                   spkVector := List.replicate m.nNeurons []
                   needToCalculateFiringRates := true
                   needToSortFiringRates := true
                   firingRates := List.replicate m.nNeurons 0
                   firingRatesSorted := List.replicate m.nNeurons 0 } := by
    unfold clear isRecording
    rw [hrec]
    simp
  set mc : SpikeMonitorCore :=
    { m with recordSet := false
             startTime := -1
             startTimeLast := -1
             stopTime := -1
             accumTime := 0
             totalTime := -1
             spkVector := List.replicate m.nNeurons []
             needToCalculateFiringRates := true
             needToSortFiringRates := true
             firingRates := List.replicate m.nNeurons 0
             firingRatesSorted := List.replicate m.nNeurons 0 } with hmc
  have hfold : (List.range mc.nNeurons).foldl
      (fun a i => a + (mc.spkVector.getD i []).length) 0 = 0 := by
    rw [foldl_add_init]
    rw [zero_add]
    apply List.sum_eq_zero
    intro x hx
    rw [List.mem_map] at hx
    obtain ⟨i, _, rfl⟩ := hx
    have : mc.spkVector.getD i [] = [] := by
      show (List.replicate m.nNeurons ([] : List Int)).getD i [] = []
      rw [getD_replicate]
      split <;> rfl
    rw [this]
    rfl
  have hpop : getPopNumSpikes mc = .ok (0, mc) := by
    unfold getPopNumSpikes isRecording
    rw [if_neg (by show ¬(false = true); simp)]
    rw [hfold]
  have htt : mc.totalTime = -1 := rfl
  have hmean : getPopMeanFiringRate mc = .ok (0, mc) := by
    unfold getPopMeanFiringRate isRecording
    rw [if_neg (by show ¬(false = true); simp)]
    rw [if_neg (by rw [htt]; decide)]
    rw [hpop]
    norm_num
  have hcalc : calculateFiringRates mc = .error () := by
    unfold calculateFiringRates
    rw [if_neg (by show ¬(true = false); simp)]
    rw [if_pos (eventMode_eq mc.mode)]
    rw [if_neg (by rw [htt]; decide), if_neg (by rw [htt]; decide)]
  have hall : getAllFiringRates mc = .error () := by
    unfold getAllFiringRates isRecording
    rw [if_neg (by show ¬(false = true); simp), hcalc]
  have hsortf : sortFiringRates mc = .error () := by
    unfold sortFiringRates
    rw [if_neg (by show ¬(true = false); simp), hcalc]
  have hallsorted : getAllFiringRatesSorted mc = .error () := by
    unfold getAllFiringRatesSorted isRecording
    rw [if_neg (by show ¬(false = true); simp), hsortf]
  have hcount : getNumNeuronsWithFiringRate 0 0 mc = .error () := by
    unfold getNumNeuronsWithFiringRate isRecording
    rw [if_neg (by show ¬(false = true); simp)]
    rw [if_pos (by norm_num), hsortf]
  have hsilent : getNumSilentNeurons mc = .error () := by
    unfold getNumSilentNeurons isRecording
    rw [if_neg (by show ¬(false = true); simp), hcount]
  have hpct : getPercentSilentNeurons mc = .error () := by
    unfold getPercentSilentNeurons isRecording
    rw [if_neg (by show ¬(false = true); simp), hcount]
  have hstd : getPopStdFiringRate mc = .error () := by
    unfold getPopStdFiringRate isRecording
    rw [if_neg (by show ¬(false = true); simp)]
    rw [if_neg (by rw [htt]; decide)]
    rw [hmean, hall]
  exact ⟨mc, hclear, hpop, hmean, hstd, hall, hallsorted, hcount, hsilent, hpct⟩

/-- C1 amended witness: the amended behaviour at the concrete fresh
monitor. -/
theorem C1_witness :
    ∃ m', clear mFresh = .ok m' ∧
      getPopNumSpikes m' = .ok (0, m') ∧
      getPopMeanFiringRate m' = .ok (0, m') ∧
      getPopStdFiringRate m' = .error () ∧
      getAllFiringRates m' = .error () ∧
      getAllFiringRatesSorted m' = .error () ∧
      getNumNeuronsWithFiringRate 0 0 m' = .error () ∧
      getNumSilentNeurons m' = .error () ∧
      getPercentSilentNeurons m' = .error () :=
  C1_amended_spec mFresh rfl

end SpikeMonitorCore

namespace SpikeMonitorCore

/-- C5: while idle, the population spike count is the sum over all neuron
indices of `getNeuronNumSpikes`, and the population mean rate is `0` when
`totalTime_ == 0` and `popNumSpikes * 1000 / (totalTime_ * nNeurons_)`
otherwise. -/
theorem C5_mean_rate_spec (m : SpikeMonitorCore) (hrec : m.recordSet = false) :
    ∃ S : ℕ,
      getPopNumSpikes m = .ok (S, m) ∧
      (∀ i, i < m.nNeurons →
         getNeuronNumSpikes i m = .ok ((m.spkVector.getD i []).length, m)) ∧
      S = ∑ i ∈ Finset.range m.nNeurons, (m.spkVector.getD i []).length ∧
      (m.totalTime = 0 → getPopMeanFiringRate m = .ok (0, m)) ∧
      (m.totalTime ≠ 0 →
         getPopMeanFiringRate m =
           .ok ((S : ℚ) * 1000 / ((m.totalTime : ℚ) * (m.nNeurons : ℚ)), m)) := by
  have hmode := eventMode_eq m.mode
  have hpop : getPopNumSpikes m =
      .ok ((List.range m.nNeurons).foldl (fun a i => a + (m.spkVector.getD i []).length) 0,
           m) := by
    unfold getPopNumSpikes isRecording
    rw [hrec]
    simp
  refine ⟨_, hpop, ?_, ?_, ?_, ?_⟩
  · intro i hi
    unfold getNeuronNumSpikes isRecording
    rw [hrec]
    simp [hi, hmode]
  · rw [foldl_add_init, zero_add, list_sum_range_eq]
  · intro h0
    unfold getPopMeanFiringRate isRecording
    rw [hrec]
    simp [h0]
  · intro hne
    unfold getPopMeanFiringRate isRecording getRecordingTotalTime
    rw [hrec]
    simp only [Bool.false_eq_true, if_false, hne, if_neg hne, hpop]

/-- C5 witness: the concrete stopped monitor (2 + 1 = 3 spikes over 500 ms
on 2 neurons). -/
theorem C5_witness :
    ∃ S : ℕ,
      getPopNumSpikes mEx = .ok (S, mEx) ∧
      (∀ i, i < mEx.nNeurons →
         getNeuronNumSpikes i mEx = .ok ((mEx.spkVector.getD i []).length, mEx)) ∧
      S = ∑ i ∈ Finset.range mEx.nNeurons, (mEx.spkVector.getD i []).length ∧
      (mEx.totalTime = 0 → getPopMeanFiringRate mEx = .ok (0, mEx)) ∧
      (mEx.totalTime ≠ 0 →
         getPopMeanFiringRate mEx =
           .ok ((S : ℚ) * 1000 / ((mEx.totalTime : ℚ) * (mEx.nNeurons : ℚ)), mEx)) :=
  C5_mean_rate_spec mEx rfl

end SpikeMonitorCore

namespace SpikeMonitorCore

/-- C7: while idle with a completed recording, the sorted rate vector is a
non-decreasing permutation of the rate vector, `getMaxFiringRate` /
`getMinFiringRate` return its maximum / minimum, and a second
`getAllFiringRatesSorted` call without an intervening `clear()` or
recording cycle returns the identical result. -/
theorem C7_sorted_spec (m : SpikeMonitorCore) (hw : WF m) (hrec : m.recordSet = false)
    (htt : 0 ≤ m.totalTime) :
    ∃ (R S : List ℚ) (m₁ m₂ : SpikeMonitorCore),
      getAllFiringRates m = .ok (R, m₁) ∧
      getAllFiringRatesSorted m = .ok (S, m₂) ∧
      S.Perm R ∧
      S.Sorted (· ≤ ·) ∧
      (∃ vmax m₃, getMaxFiringRate m = .ok (vmax, m₃) ∧ vmax ∈ R ∧ ∀ x ∈ R, x ≤ vmax) ∧
      (∃ vmin m₄, getMinFiringRate m = .ok (vmin, m₄) ∧ vmin ∈ R ∧ ∀ x ∈ R, vmin ≤ x) ∧
      getAllFiringRatesSorted m₂ = .ok (S, m₂) := by
  have hn : 0 < m.nNeurons := hw.1
  obtain ⟨R, mc, ms, hcEq, hmcR, hRlen, hAll, hsEq, hms, hmsflag, hmsrec, hSorted⟩ :=
    queries_core m hw hrec htt
  have hperm : (stdSort R).Perm R := List.perm_insertionSort _ R
  have hsorted : (stdSort R).Sorted (· ≤ ·) := List.sorted_insertionSort _ R
  have hSlen : (stdSort R).length = m.nNeurons := by rw [hperm.length_eq, hRlen]
  have hne : stdSort R ≠ [] := by
    intro h
    rw [h] at hSlen
    simp at hSlen
    rw [← hSlen] at hn
    exact lt_irrefl 0 hn
  have hlast : (stdSort R).getLast? = some ((stdSort R).getLast hne) :=
    List.getLast?_eq_getLast_of_ne_nil hne
  have hhead : (stdSort R).head? = some ((stdSort R).head hne) := List.head?_eq_head hne
  have hmax : getMaxFiringRate m = .ok ((stdSort R).getLast hne, ms) := by
    unfold getMaxFiringRate isRecording
    rw [hrec]
    simp [hSorted, hlast]
  have hmin : getMinFiringRate m = .ok ((stdSort R).head hne, ms) := by
    unfold getMinFiringRate isRecording
    rw [hrec]
    simp [hSorted, hhead]
  obtain ⟨hmaxMem, hmaxUb⟩ := sorted_getLast?_max (stdSort R) hsorted _ hlast
  obtain ⟨hminMem, hminLb⟩ := sorted_head?_min (stdSort R) hsorted _ hhead
  refine ⟨R, stdSort R, mc, ms, hAll, hSorted, hperm, hsorted, ?_, ?_, ?_⟩
  · refine ⟨_, ms, hmax, hperm.mem_iff.mp hmaxMem, ?_⟩
    intro x hx
    exact hmaxUb x (hperm.mem_iff.mpr hx)
  · refine ⟨_, ms, hmin, hperm.mem_iff.mp hminMem, ?_⟩
    intro x hx
    exact hminLb x (hperm.mem_iff.mpr hx)
  · unfold getAllFiringRatesSorted isRecording
    rw [hmsrec]
    unfold sortFiringRates
    rw [if_pos hmsflag]
    simp [hms]

/-- C7 witness: the concrete stopped monitor with dirty caches. -/
theorem C7_witness :
    ∃ (R S : List ℚ) (m₁ m₂ : SpikeMonitorCore),
      getAllFiringRates mEx = .ok (R, m₁) ∧
      getAllFiringRatesSorted mEx = .ok (S, m₂) ∧
      S.Perm R ∧
      S.Sorted (· ≤ ·) ∧
      (∃ vmax m₃, getMaxFiringRate mEx = .ok (vmax, m₃) ∧ vmax ∈ R ∧ ∀ x ∈ R, x ≤ vmax) ∧
      (∃ vmin m₄, getMinFiringRate mEx = .ok (vmin, m₄) ∧ vmin ∈ R ∧ ∀ x ∈ R, vmin ≤ x) ∧
      getAllFiringRatesSorted m₂ = .ok (S, m₂) :=
  C7_sorted_spec mEx (by decide) (by decide) (by decide)

end SpikeMonitorCore

namespace SpikeMonitorCore

/-- C8: while idle, for a valid range `0 ≤ min ≤ max`,
`getNumNeuronsWithFiringRate` counts exactly the neurons whose rate lies in
`[min, max]` (both ends inclusive), `getNumSilentNeurons` equals the count
for `[0, 0]`, and `getPercentSilentNeurons` is that count times 100 divided
by `nNeurons_`. -/
theorem C8_range_count_spec (m : SpikeMonitorCore) (hw : WF m) (hrec : m.recordSet = false)
    (htt : 0 ≤ m.totalTime) (mi ma : ℚ) (hmi : 0 ≤ mi) (hma : 0 ≤ ma) (hle : mi ≤ ma) :
    ∃ (c c0 : ℕ) (R : List ℚ) (m₁ m₂ m₃ m₄ m₅ : SpikeMonitorCore),
      getAllFiringRates m = .ok (R, m₁) ∧
      getNumNeuronsWithFiringRate mi ma m = .ok (c, m₂) ∧
      c = R.countP (fun r => decide (mi ≤ r) && decide (r ≤ ma)) ∧
      getNumNeuronsWithFiringRate 0 0 m = .ok (c0, m₃) ∧
      getNumSilentNeurons m = .ok (c0, m₄) ∧
      getPercentSilentNeurons m = .ok ((c0 : ℚ) * 100 / (m.nNeurons : ℚ), m₅) ∧
      c0 = R.countP (fun r => decide (0 ≤ r) && decide (r ≤ 0)) := by
  obtain ⟨R, mc, ms, hcEq, hmcR, hRlen, hAll, hsEq, hms, hmsflag, hmsrec, hSorted⟩ :=
    queries_core m hw hrec htt
  have hperm : (stdSort R).Perm R := List.perm_insertionSort _ R
  have hcount : getNumNeuronsWithFiringRate mi ma m =
      .ok ((stdSort R).countP (fun r => decide (mi ≤ r) && decide (r ≤ ma)), ms) := by
    have hcond : 0 ≤ mi ∧ 0 ≤ ma ∧ mi ≤ ma := ⟨hmi, hma, hle⟩
    unfold getNumNeuronsWithFiringRate isRecording
    rw [hrec]
    rw [if_neg (by show ¬(false = true); simp), if_pos hcond, hsEq]
    simp [hms]
  have hcount0 : getNumNeuronsWithFiringRate 0 0 m =
      .ok ((stdSort R).countP (fun r => decide ((0:ℚ) ≤ r) && decide (r ≤ (0:ℚ))), ms) := by
    have hcond0 : (0:ℚ) ≤ 0 ∧ (0:ℚ) ≤ 0 ∧ (0:ℚ) ≤ 0 :=
      ⟨le_refl 0, le_refl 0, le_refl 0⟩
    unfold getNumNeuronsWithFiringRate isRecording
    rw [hrec]
    rw [if_neg (by show ¬(false = true); simp), if_pos hcond0, hsEq]
    simp [hms]
  have hsilent : getNumSilentNeurons m =
      .ok ((stdSort R).countP (fun r => decide ((0:ℚ) ≤ r) && decide (r ≤ (0:ℚ))), ms) := by
    unfold getNumSilentNeurons isRecording
    rw [hrec]
    rw [if_neg (by show ¬(false = true); simp), hcount0]
  have hpct : getPercentSilentNeurons m =
      .ok ((((stdSort R).countP
              (fun r => decide ((0:ℚ) ≤ r) && decide (r ≤ (0:ℚ)))) : ℚ) * 100 /
            (m.nNeurons : ℚ), ms) := by
    unfold getPercentSilentNeurons isRecording
    rw [hrec]
    rw [if_neg (by show ¬(false = true); simp), hcount0]
  exact ⟨_, _, R, mc, ms, ms, ms, ms, hAll, hcount,
         hperm.countP_eq _, hcount0, hsilent, hpct, hperm.countP_eq _⟩

/-- C8 witness: the concrete stopped monitor with the range `[0, 5]`. -/
theorem C8_witness :
    ∃ (c c0 : ℕ) (R : List ℚ) (m₁ m₂ m₃ m₄ m₅ : SpikeMonitorCore),
      getAllFiringRates mEx = .ok (R, m₁) ∧
      getNumNeuronsWithFiringRate 0 5 mEx = .ok (c, m₂) ∧
      c = R.countP (fun r => decide ((0:ℚ) ≤ r) && decide (r ≤ (5:ℚ))) ∧
      getNumNeuronsWithFiringRate 0 0 mEx = .ok (c0, m₃) ∧
      getNumSilentNeurons mEx = .ok (c0, m₄) ∧
      getPercentSilentNeurons mEx = .ok ((c0 : ℚ) * 100 / (mEx.nNeurons : ℚ), m₅) ∧
      c0 = R.countP (fun r => decide ((0:ℚ) ≤ r) && decide (r ≤ (0:ℚ))) :=
  C8_range_count_spec mEx (by decide) (by decide) (by decide) 0 5 (by norm_num)
    (by norm_num) (by norm_num)

end SpikeMonitorCore

namespace SpikeMonitorCore

/-- C6: while idle, the population standard-deviation query returns the
square root of the sample variance of the per-neuron rates (division by
`nNeurons_ - 1`) when `nNeurons_ > 1`, and `0` when `nNeurons_ <= 1`.  The
query returns the radicand, so the square root is applied at the statement
level. -/
theorem C6_std_spec (m : SpikeMonitorCore) (hw : WF m) (hrec : m.recordSet = false)
    (htt : 0 ≤ m.totalTime) :
    ∃ (s mu : ℚ) (R : List ℚ) (m₁ m₂ m₃ : SpikeMonitorCore),
      getPopStdFiringRate m = .ok (s, m₁) ∧
      getPopMeanFiringRate m = .ok (mu, m₂) ∧
      getAllFiringRates m = .ok (R, m₃) ∧
      (1 < m.nNeurons →
         Real.sqrt (s : ℝ) = Real.sqrt ((sampleVariance R mu m.nNeurons : ℚ) : ℝ)) ∧
      (m.nNeurons ≤ 1 → s = 0) := by
  have hnotrec : ¬(m.recordSet = true) := by simp [hrec]
  by_cases h0 : m.totalTime = 0
  · have hc' : m.needToCalculateFiringRates = true := by
      cases hcal : m.needToCalculateFiringRates with
      | false => exact absurd h0 (ne_of_gt (hw.2.2.2.2.1 hcal).1)
      | true => rfl
    have hcEq : calculateFiringRates m =
        .ok { m with firingRates := List.replicate m.nNeurons 0
                     firingRatesSorted := List.replicate m.nNeurons 0 } := by
      unfold calculateFiringRates
      rw [if_neg (by rw [hc']; simp), if_pos (eventMode_eq m.mode), if_pos h0]
    have hAll : getAllFiringRates m =
        .ok (List.replicate m.nNeurons 0,
             { m with firingRates := List.replicate m.nNeurons 0
                      firingRatesSorted := List.replicate m.nNeurons 0 }) := by
      unfold getAllFiringRates isRecording
      rw [if_neg hnotrec, hcEq]
    have hmean : getPopMeanFiringRate m = .ok (0, m) := by
      unfold getPopMeanFiringRate isRecording
      rw [if_neg hnotrec, if_pos h0]
    have hstd : getPopStdFiringRate m = .ok (0, m) := by
      unfold getPopStdFiringRate isRecording
      rw [if_neg hnotrec, if_pos h0]
    have hvar : sampleVariance (List.replicate m.nNeurons 0) 0 m.nNeurons = 0 := by
      unfold sampleVariance
      rw [List.map_replicate]
      simp
    refine ⟨0, 0, List.replicate m.nNeurons 0, m, m, _, hstd, hmean, hAll, ?_, fun _ => rfl⟩
    intro _
    rw [hvar]
  · have hpos : 0 < m.totalTime := lt_of_le_of_ne htt (Ne.symm h0)
    obtain ⟨R, mc, ms, hcEq, hmcR, hRlen, hAll, hsEq, hms, hmsflag, hmsrec, hSorted⟩ :=
      queries_core m hw hrec htt
    have hpop : getPopNumSpikes m =
        .ok ((List.range m.nNeurons).foldl
               (fun a i => a + (m.spkVector.getD i []).length) 0, m) := by
      unfold getPopNumSpikes isRecording
      rw [if_neg hnotrec]
    set Sn : ℕ := (List.range m.nNeurons).foldl
      (fun a i => a + (m.spkVector.getD i []).length) 0 with hSn
    set mu : ℚ := (Sn : ℚ) * 1000 / ((m.totalTime : ℚ) * (m.nNeurons : ℚ)) with hmu
    have hmean : getPopMeanFiringRate m = .ok (mu, m) := by
      unfold getPopMeanFiringRate isRecording getRecordingTotalTime
      rw [if_neg hnotrec, if_neg h0, hpop]
    have hlam : (fun r : ℚ => (r - mu) * (r - mu)) = fun r : ℚ => (r - mu) ^ 2 := by
      funext r
      rw [pow_two]
    have hfold : (List.range m.nNeurons).foldl
        (fun a i => a + (R.getD i 0 - mu) * (R.getD i 0 - mu)) 0
        = (R.map (fun r => (r - mu) ^ 2)).sum := by
      rw [foldl_add_init, zero_add, ← hRlen,
          map_getD_range (fun r => (r - mu) * (r - mu)) 0 R, hlam]
    by_cases h1 : 1 < m.nNeurons
    · have hstd : getPopStdFiringRate m =
          .ok (((List.range m.nNeurons).foldl
                  (fun a i => a + (R.getD i 0 - mu) * (R.getD i 0 - mu)) 0)
                / ((m.nNeurons : ℚ) - 1), mc) := by
        unfold getPopStdFiringRate isRecording
        rw [if_neg hnotrec, if_neg h0, hmean, hAll]
        simp [h1]
      refine ⟨_, mu, R, mc, m, mc, hstd, hmean, hAll, ?_, ?_⟩
      · intro _
        have hsv : ((List.range m.nNeurons).foldl
            (fun a i => a + (R.getD i 0 - mu) * (R.getD i 0 - mu)) 0)
            / ((m.nNeurons : ℚ) - 1) = sampleVariance R mu m.nNeurons := by
          unfold sampleVariance
          rw [hfold]
        rw [hsv]
      · intro hle
        exact absurd h1 (not_lt.mpr hle)
    · have hstd : getPopStdFiringRate m = .ok (0, mc) := by
        unfold getPopStdFiringRate isRecording
        rw [if_neg hnotrec, if_neg h0, hmean, hAll]
        simp [h1]
      refine ⟨0, mu, R, mc, m, mc, hstd, hmean, hAll, ?_, fun _ => rfl⟩
      intro h1'
      exact absurd h1' h1

/-- C6 witness: the concrete stopped monitor (rates 4 Hz and 2 Hz, mean
3 Hz, sample variance 2). -/
theorem C6_witness :
    ∃ (s mu : ℚ) (R : List ℚ) (m₁ m₂ m₃ : SpikeMonitorCore),
      getPopStdFiringRate mEx = .ok (s, m₁) ∧
      getPopMeanFiringRate mEx = .ok (mu, m₂) ∧
      getAllFiringRates mEx = .ok (R, m₃) ∧
      (1 < mEx.nNeurons →
         Real.sqrt (s : ℝ) = Real.sqrt ((sampleVariance R mu mEx.nNeurons : ℚ) : ℝ)) ∧
      (mEx.nNeurons ≤ 1 → s = 0) :=
  C6_std_spec mEx (by decide) (by decide) (by decide)

end SpikeMonitorCore

namespace SpikeMonitorCore

/-- `getPopNumSpikes` returns the unchanged monitor. -/
lemma getPopNumSpikes_state {m : SpikeMonitorCore} {p : Nat × SpikeMonitorCore}
    (h : getPopNumSpikes m = .ok p) : p.2 = m := by
  unfold getPopNumSpikes isRecording at h
  split at h
  · exact Except.noConfusion h
  · injection h with h'
    rw [← h']

/-- `getAllFiringRates` only touches the caches and their flags. -/
lemma getAllFiringRates_frame {m : SpikeMonitorCore} {v : List ℚ} {m' : SpikeMonitorCore}
    (h : getAllFiringRates m = .ok (v, m')) : framePreserved m m' := by
  unfold getAllFiringRates isRecording at h
  split at h
  · exact Except.noConfusion h
  · revert h
    cases hc : calculateFiringRates m with
    | error e => intro h; exact Except.noConfusion h
    | ok mc =>
      intro h
      injection h with h'
      injection h' with h1 h2
      subst h2
      exact calculateFiringRates_frame hc

/-- `getAllFiringRatesSorted` only touches the caches and their flags. -/
lemma getAllFiringRatesSorted_frame {m : SpikeMonitorCore} {v : List ℚ}
    {m' : SpikeMonitorCore} (h : getAllFiringRatesSorted m = .ok (v, m')) :
    framePreserved m m' := by
  unfold getAllFiringRatesSorted isRecording at h
  split at h
  · exact Except.noConfusion h
  · revert h
    cases hs : sortFiringRates m with
    | error e => intro h; exact Except.noConfusion h
    | ok ms =>
      intro h
      injection h with h'
      injection h' with h1 h2
      subst h2
      exact sortFiringRates_frame hs

/-- `getNumNeuronsWithFiringRate` only touches the caches and their flags. -/
lemma getNumNeuronsWithFiringRate_frame {mi ma : ℚ} {m : SpikeMonitorCore} {v : ℕ}
    {m' : SpikeMonitorCore} (h : getNumNeuronsWithFiringRate mi ma m = .ok (v, m')) :
    framePreserved m m' := by
  unfold getNumNeuronsWithFiringRate isRecording at h
  split at h
  · exact Except.noConfusion h
  · split at h
    · revert h
      cases hs : sortFiringRates m with
      | error e => intro h; exact Except.noConfusion h
      | ok ms =>
        intro h
        injection h with h'
        injection h' with h1 h2
        subst h2
        exact sortFiringRates_frame hs
    · exact Except.noConfusion h

/-- C10: every statistics query leaves the spike store, all five timing
fields, the recording flag (and the file and diagnostic state) unchanged;
only the two rate caches and their dirty flags may change. -/
theorem C10_queries_frame (m : SpikeMonitorCore) :
    (∀ v m', getPopMeanFiringRate m = .ok (v, m') → framePreserved m m') ∧
    (∀ v m', getPopStdFiringRate m = .ok (v, m') → framePreserved m m') ∧
    (∀ v m', getPopNumSpikes m = .ok (v, m') → framePreserved m m') ∧
    (∀ i v m', getNeuronNumSpikes i m = .ok (v, m') → framePreserved m m') ∧
    (∀ v m', getAllFiringRates m = .ok (v, m') → framePreserved m m') ∧
    (∀ v m', getAllFiringRatesSorted m = .ok (v, m') → framePreserved m m') ∧
    (∀ v m', getMaxFiringRate m = .ok (v, m') → framePreserved m m') ∧
    (∀ v m', getMinFiringRate m = .ok (v, m') → framePreserved m m') ∧
    (∀ mi ma v m', getNumNeuronsWithFiringRate mi ma m = .ok (v, m') →
       framePreserved m m') ∧
    (∀ v m', getNumSilentNeurons m = .ok (v, m') → framePreserved m m') ∧
    (∀ v m', getSpikeVector2D m = .ok (v, m') → framePreserved m m') := by
  refine ⟨?_, ?_, ?_, ?_, ?_, ?_, ?_, ?_, ?_, ?_, ?_⟩
  · intro v m' h
    unfold getPopMeanFiringRate isRecording at h
    split at h
    · exact Except.noConfusion h
    · split at h
      · injection h with h'
        injection h' with h1 h2
        subst h2
        exact framePreserved_refl m
      · revert h
        cases hp : getPopNumSpikes m with
        | error e => intro h; exact Except.noConfusion h
        | ok p =>
          obtain ⟨nSpk, m2⟩ := p
          intro h
          injection h with h'
          injection h' with h1 h2
          subst h2
          rw [show m2 = m from getPopNumSpikes_state hp]
          exact framePreserved_refl m
  · intro v m' h
    unfold getPopStdFiringRate isRecording at h
    split at h
    · exact Except.noConfusion h
    · split at h
      · injection h with h'
        injection h' with h1 h2
        subst h2
        exact framePreserved_refl m
      · cases hq : getPopMeanFiringRate m with
        | error e => rw [hq] at h; exact Except.noConfusion h
        | ok q =>
          obtain ⟨mu, mq⟩ := q
          rw [hq] at h
          cases hA : getAllFiringRates m with
          | error e => rw [hA] at h; exact Except.noConfusion h
          | ok r =>
            obtain ⟨rates, mr⟩ := r
            rw [hA] at h
            split at h
            · rename_i e heq
              exact Except.noConfusion heq
            · rename_i meanRate snd heq
              injection heq with hp
              injection hp with h1 h2
              subst h1
              split at h
              · rename_i e heq2
                exact Except.noConfusion heq2
              · rename_i rates2 mr2 heq2
                injection heq2 with hp2
                injection hp2 with h3 h4
                subst h3
                subst h4
                split at h
                · injection h with h'
                  injection h' with h5 h6
                  subst h6
                  exact getAllFiringRates_frame hA
                · injection h with h'
                  injection h' with h5 h6
                  subst h6
                  exact getAllFiringRates_frame hA
  · intro v m' h
    rw [show m' = m from getPopNumSpikes_state h]
    exact framePreserved_refl m
  · intro i v m' h
    unfold getNeuronNumSpikes isRecording at h
    split at h
    · exact Except.noConfusion h
    · split at h
      · split at h
        · injection h with h'
          injection h' with h1 h2
          subst h2
          exact framePreserved_refl m
        · exact Except.noConfusion h
      · exact Except.noConfusion h
  · intro v m' h
    exact getAllFiringRates_frame h
  · intro v m' h
    exact getAllFiringRatesSorted_frame h
  · intro v m' h
    unfold getMaxFiringRate isRecording at h
    split at h
    · exact Except.noConfusion h
    · cases hS : getAllFiringRatesSorted m with
      | error e => rw [hS] at h; exact Except.noConfusion h
      | ok p =>
        obtain ⟨rates, ms⟩ := p
        rw [hS] at h
        split at h
        · rename_i e heq
          exact Except.noConfusion heq
        · rename_i rates2 ms2 heq
          injection heq with hp
          injection hp with h1 h2
          subst h1
          subst h2
          split at h
          · exact Except.noConfusion h
          · injection h with h'
            injection h' with h3 h4
            subst h4
            exact getAllFiringRatesSorted_frame hS
  · intro v m' h
    unfold getMinFiringRate isRecording at h
    split at h
    · exact Except.noConfusion h
    · cases hS : getAllFiringRatesSorted m with
      | error e => rw [hS] at h; exact Except.noConfusion h
      | ok p =>
        obtain ⟨rates, ms⟩ := p
        rw [hS] at h
        split at h
        · rename_i e heq
          exact Except.noConfusion heq
        · rename_i rates2 ms2 heq
          injection heq with hp
          injection hp with h1 h2
          subst h1
          subst h2
          split at h
          · exact Except.noConfusion h
          · injection h with h'
            injection h' with h3 h4
            subst h4
            exact getAllFiringRatesSorted_frame hS
  · intro mi ma v m' h
    exact getNumNeuronsWithFiringRate_frame h
  · intro v m' h
    unfold getNumSilentNeurons isRecording at h
    split at h
    · exact Except.noConfusion h
    · exact getNumNeuronsWithFiringRate_frame h
  · intro v m' h
    unfold getSpikeVector2D isRecording at h
    split at h
    · exact Except.noConfusion h
    · split at h
      · injection h with h'
        injection h' with h1 h2
        subst h2
        exact framePreserved_refl m
      · exact Except.noConfusion h

/-- C10 witness: the sorted-rates query on the concrete clean monitor. -/
theorem C10_witness :
    ∃ (v : List ℚ) (m' : SpikeMonitorCore),
      getAllFiringRatesSorted mClean = .ok (v, m') ∧ framePreserved mClean m' :=
  ⟨[2, 4], mClean, by decide,
   (C10_queries_frame mClean).2.2.2.2.2.1 [2, 4] mClean (by decide)⟩

end SpikeMonitorCore
